import Mathlib

/-!
Verification of the face-signature pipeline of the Smart Class Attendance
backend (`face_feature_extractor.py`), as a shallow embedding in Lean 4.

Modelling choices:
* An `Image` is characterised by what decoding and the external face model
  (`face_recognition`) produce on it: whether `load_image_file` /
  `cv2.imdecode` succeeds, the list of detected face regions
  (`face_locations`), and the per-region encodings and landmarks.  The face
  model is an external black box, so these outputs are the image's fields.
* Embeddings are `List ℚ` (real-valued fixed-length vectors; rationals keep
  arithmetic exact and decidable).
* `face_recognition.face_distance([a], b)` computes the Euclidean norm of the
  numpy broadcast difference.  We embed the squared norm
  (`face_distance_sq`): the square root is monotone and zero-preserving, so
  success/failure, zero-ness and comparisons are unaffected, and the value
  stays in `ℚ`.  Numpy broadcasting of shapes `(1, n) - (m,)` succeeds iff
  `n = m ∨ n = 1 ∨ m = 1`, which the embedding reproduces.
* The persistence layer (`np.save` on `face_encodings/<id>.npy`) is a map
  from paths to file contents.  `np.save` opens the target with mode `wb`
  (truncating any existing file) and then streams the array; a failure during
  the write therefore leaves a truncated file behind.  `WriteOutcome` makes
  the possible fates of one write explicit.
* Python exceptions caught by `try/except` blocks become `Option`/`Except`
  values or outcome flags; exceptions the source swallows with `continue`
  become skipped elements.
-/

namespace SmartAttendance

/-- A face bounding box `(top, right, bottom, left)` from
`face_recognition.face_locations`. -/
abbrev FaceRegion := ℤ × ℤ × ℤ × ℤ

/-- A named landmark map (feature name ↦ list of 2-D points), as returned by
`face_recognition.face_landmarks` for one region. -/
abbrev Landmarks := List (String × List (ℤ × ℤ))

/-- An uploaded image, characterised by the outputs of decoding and of the
external face model on it. -/
structure Image where
  /-- `face_recognition.load_image_file` succeeds (the bytes decode). -/
  decodable : Bool
  /-- detected face regions, in the order the model produces them -/
  face_locations : List FaceRegion
  /-- per-region 128-d encodings, aligned with `face_locations` -/
  face_encodings : List (List ℚ)
  /-- per-region landmark maps, aligned with `face_locations` -/
  face_landmarks : List Landmarks
deriving DecidableEq

/-- The record returned by `extract_face_features` on success:
`{"face_encoding": ..., "face_landmarks": ...}`. -/
structure FaceFeatures where
  face_encoding : List ℚ
  face_landmarks : Landmarks
deriving DecidableEq

/-- `extract_face_features(image_file)` from `face_feature_extractor.py`
lines 114–159.  The whole body is wrapped in `try/except` returning `None`:
a decode failure raises and is caught (`none`); zero `face_locations` returns
`None`; empty `face_encodings` returns `None`; otherwise the first encoding
and first landmark map are packaged (an out-of-range `[0]` on the landmark
list would raise `IndexError`, again caught as `none`). -/
def extract_face_features (image_file : Image) : Option FaceFeatures :=
  if image_file.decodable = false then none
  else if image_file.face_locations = [] then none
  else if image_file.face_encodings = [] then none
  else
    match image_file.face_encodings, image_file.face_landmarks with
    | e :: _, l :: _ => some { face_encoding := e, face_landmarks := l }
    | _, _ => none

/-- Error message of a failed numpy broadcast (`ValueError: operands could
not be broadcast together ...`). -/
def broadcastErrMsg : String := "operands could not be broadcast together"

/-- Numpy broadcast subtraction of a shape-`(1, n)` row against a
shape-`(m,)` vector, as in `face_encodings - face_to_compare` inside
`face_recognition.face_distance`.  Broadcasting succeeds iff the lengths
agree or one of them is `1`; otherwise numpy raises `ValueError`. -/
def np_broadcast_sub (a b : List ℚ) : Except String (List ℚ) :=
  if a.length = b.length then Except.ok (List.zipWith (fun x y => x - y) a b)
  else
    match a, b with
    | [x], b => Except.ok (b.map (fun y => x - y))
    | a, [y] => Except.ok (a.map (fun x => x - y))
    | _, _ => Except.error broadcastErrMsg

/-- Squared Euclidean distance computed by
`face_recognition.face_distance([face_encoding1], face_encoding2)[0]`
(lines 184–189): the norm of the broadcast difference along axis 1.  The
source takes the square root of this value; squaring is omitted from the
embedding as explained in the header (it changes no success/failure or
zero-ness fact). -/
def face_distance_sq (a b : List ℚ) : Except String ℚ :=
  (np_broadcast_sub a b).map (fun d => (d.map (fun x => x * x)).sum)

/-- JSON response of the `/extract-features` POST handler. -/
inductive CompareResponse
  /-- HTTP 200 `{image1_features, image2_features, face_distance}` -/
  | ok (image1_features image2_features : FaceFeatures) (face_distance_sq : ℚ)
  /-- HTTP 400 `{"error": msg}` -/
  | badRequest (error : String)
  /-- HTTP 500 `{"error": msg}` from the handler's `except` clause -/
  | serverError (error : String)
deriving DecidableEq

/-- HTTP status code attached to each `/extract-features` response. -/
def CompareResponse.statusCode : CompareResponse → Nat
  | .ok _ _ _ => 200
  | .badRequest _ => 400
  | .serverError _ => 500

/-- The `/extract-features` POST handler (`extract_features`, lines
169–199), from the point where both files are present: extract features from
both images; if either extraction returned `None`, answer 400 with
`{"error": "No face detected in one or both images"}` before any distance is
computed; otherwise compute the face distance (a `ValueError` raised by a
failed broadcast is caught by the handler's `except` and answered as 500
with the exception text). -/
def extract_features_post (img1 img2 : Image) : CompareResponse :=
  match extract_face_features img1, extract_face_features img2 with
  | some f1, some f2 =>
    match face_distance_sq f1.face_encoding f2.face_encoding with
    | Except.ok d => CompareResponse.ok f1 f2 d
    | Except.error e => CompareResponse.serverError e
  | _, _ => CompareResponse.badRequest "No face detected in one or both images"

/-- `np.mean(face_encodings, axis=0)` (line 286): sum the vectors
element-wise and divide each component by the number of vectors. -/
def np_mean_axis0 (vs : List (List ℚ)) : List ℚ :=
  match vs with
  | [] => []
  | v :: rest =>
    (rest.foldl (fun acc w => List.zipWith (fun x y => x + y) acc w) v).map
      (fun x => x / ((rest.length + 1 : ℕ) : ℚ))

/-- An enrollment image inside the `/process-images` loop (lines 252–277),
characterised the same way as `Image`: whether the
`b64decode`/`imdecode`/`cvtColor` pipeline succeeds, and the face-model
outputs on the decoded RGB image. -/
structure EnrollImage where
  /-- the base64 decode / `cv2.imdecode` / `cvtColor` chain succeeds -/
  decodeOk : Bool
  /-- detected face regions on the RGB image -/
  face_locations : List FaceRegion
  /-- per-region encodings, aligned with `face_locations` -/
  face_encodings : List (List ℚ)
deriving DecidableEq

/-- One iteration of the `/process-images` loop: decode failure raises and
the `except` does `continue` (`none`); zero `face_locations` logs a warning
and does `continue` (`none`); otherwise
`face_recognition.face_encodings(...)[0]` is appended (an `IndexError` on an
empty encoding list is caught by the same `except` and skipped). -/
def per_image_encoding (img : EnrollImage) : Option (List ℚ) :=
  if img.decodeOk = false then none
  else if img.face_locations = [] then none
  else img.face_encodings.head?

/-- The `face_encodings` list accumulated by the `/process-images` loop:
images whose iteration was skipped contribute nothing. -/
def collect_encodings (imgs : List EnrollImage) : List (List ℚ) :=
  imgs.filterMap per_image_encoding

/-- Contents of one file in the `face_encodings/` store. -/
inductive FileContent
  /-- a completely written `.npy` record holding this embedding -/
  | full (e : List ℚ)
  /-- a truncated record: the write stopped after `written`, a proper
  prefix of the intended embedding -/
  | incomplete (written : List ℚ)
deriving DecidableEq

/-- The persistence layer: a map from file paths to contents. -/
def FS := String → Option FileContent

/-- How one `np.save` call fares, decided by the environment (disk, OS). -/
inductive WriteOutcome
  /-- the write completes -/
  | ok
  /-- opening the file raises before anything is touched -/
  | failOpen
  /-- the write raises after `k` components have been streamed out; the
  file was already truncated by the `wb` open -/
  | failWrite (k : Nat)
deriving DecidableEq

/-- `np.save(path, arr)`: open `path` with mode `wb` — truncating any
existing file — then stream the array.  Returns the new file map and
whether the call raised.  On `failOpen` nothing changed; on `failWrite k`
the path holds a truncated record (the previous contents are gone). -/
def np_save (fs : FS) (path : String) (e : List ℚ) (w : WriteOutcome) :
    FS × Bool :=
  match w with
  | .ok => (fun p => if p = path then some (.full e) else fs p, true)
  | .failOpen => (fs, false)
  | .failWrite k =>
    (fun p => if p = path then some (.incomplete (e.take k)) else fs p, false)

/-- `np.load(path)`: the stored embedding if the path holds a complete
record, otherwise no readable value (missing file raises `FileNotFoundError`,
a truncated record raises on parsing). -/
def np_load (fs : FS) (path : String) : Option (List ℚ) :=
  match fs path with
  | some (.full e) => some e
  | _ => none

/-- Path of a student's persisted signature. -/
def encodingPath (student_id : String) : String :=
  "face_encodings/" ++ student_id ++ ".npy"

/-- `save_face_encoding(student_id, face_encoding)` (lines 201–209):
`np.save` wrapped in `try/except`, returning `True` on success and `False`
when the save raised. -/
def save_face_encoding (fs : FS) (student_id : String) (face_encoding : List ℚ)
    (w : WriteOutcome) : FS × Bool :=
  np_save fs (encodingPath student_id) face_encoding w

/-- JSON response of the `/process-images` handler. -/
inductive EnrollResponse
  /-- HTTP 200 `{'status': 'success', 'message': 'Student registered
  successfully', 'student_id': ...}` -/
  | success (student_id : String)
  /-- HTTP 400 `{'status': 'error', 'message': msg}` -/
  | badRequest (message : String)
  /-- HTTP 500 `{'status': 'error', 'message': msg}` -/
  | serverError (message : String)
deriving DecidableEq

/-- The `/process-images` handler (`process_images`, lines 229–307), from
the point where the payload fields are validated: run the per-image loop,
answer 400 `'No valid faces detected in any image'` if no image yielded an
encoding, otherwise average the encodings, save, and answer 500
`'Failed to save face encoding'` if `save_face_encoding` reported failure,
else 200 success.  `w` is the environment's fate for the one save. -/
def process_images (student_id : String) (imgs : List EnrollImage)
    (fs : FS) (w : WriteOutcome) : EnrollResponse × FS :=
  let encs := collect_encodings imgs
  if encs = [] then
    (EnrollResponse.badRequest "No valid faces detected in any image", fs)
  else
    let avg := np_mean_axis0 encs
    let r := save_face_encoding fs student_id avg w
    if r.2 then (EnrollResponse.success student_id, r.1)
    else (EnrollResponse.serverError "Failed to save face encoding", r.1)

/-! ### Helper lemmas (shared) -/

/-- Component `i` of an element-wise sum of two vectors. -/
theorem zipWith_add_getD (a b : List ℚ) (i : ℕ) (ha : i < a.length)
    (hb : i < b.length) :
    (List.zipWith (fun x y => x + y) a b).getD i 0 = a.getD i 0 + b.getD i 0 := by
  induction a generalizing b i with
  | nil => simp at ha
  | cons x xs ih =>
    cases b with
    | nil => simp at hb
    | cons y ys =>
      cases i with
      | zero => simp
      | succ n =>
        simp only [List.zipWith_cons_cons, List.getD_cons_succ]
        exact ih ys n (by simpa using ha) (by simpa using hb)

/-- The running element-wise sum of same-length vectors keeps that length. -/
theorem foldl_zipWith_length (n : ℕ) (v : List ℚ) (rest : List (List ℚ))
    (hv : v.length = n) (hr : ∀ w ∈ rest, w.length = n) :
    (rest.foldl (fun acc w => List.zipWith (fun x y => x + y) acc w) v).length
      = n := by
  induction rest generalizing v with
  | nil => simpa using hv
  | cons w ws ih =>
    simp only [List.foldl_cons]
    refine ih _ ?_ (fun u hu => hr u (by simp [hu]))
    simp [List.length_zipWith, hv, hr w (by simp)]

/-- Component `i` of the running element-wise sum is the sum of the `i`-th
components. -/
theorem foldl_zipWith_getD (n i : ℕ) (hi : i < n) (v : List ℚ)
    (rest : List (List ℚ)) (hv : v.length = n) (hr : ∀ w ∈ rest, w.length = n) :
    (rest.foldl (fun acc w => List.zipWith (fun x y => x + y) acc w) v).getD i 0
      = v.getD i 0 + (rest.map (fun w => w.getD i 0)).sum := by
  induction rest generalizing v with
  | nil => simp
  | cons w ws ih =>
    simp only [List.foldl_cons, List.map_cons, List.sum_cons]
    rw [ih (List.zipWith (fun x y => x + y) v w)
      (by simp [List.length_zipWith, hv, hr w (by simp)])
      (fun u hu => hr u (by simp [hu]))]
    rw [zipWith_add_getD v w i (hv ▸ hi) ((hr w (by simp)) ▸ hi)]
    ring

/-- Characterisation of `np_mean_axis0` on a non-empty family of
same-length vectors: the result has that length and its `i`-th component is
the sum of the `i`-th components divided by the family size. -/
theorem np_mean_axis0_spec (vs : List (List ℚ)) (n : ℕ) (h0 : vs ≠ [])
    (hl : ∀ v ∈ vs, v.length = n) :
    (np_mean_axis0 vs).length = n ∧
    ∀ i, i < n → (np_mean_axis0 vs).getD i 0
      = (vs.map (fun v => v.getD i 0)).sum / (vs.length : ℚ) := by
  match vs with
  | [] => exact absurd rfl h0
  | v :: rest =>
    have hv : v.length = n := hl v (by simp)
    have hr : ∀ w ∈ rest, w.length = n := fun w hw => hl w (by simp [hw])
    have hlen := foldl_zipWith_length n v rest hv hr
    refine ⟨by simpa [np_mean_axis0] using hlen, fun i hi => ?_⟩
    have hget := foldl_zipWith_getD n i hi v rest hv hr
    have hilt : i <
        (rest.foldl (fun acc w => List.zipWith (fun x y => x + y) acc w) v).length :=
      hlen ▸ hi
    simp only [np_mean_axis0, List.map_cons, List.sum_cons, List.length_cons]
    rw [List.getD_eq_getElem _ _ (by simpa using hilt), List.getElem_map,
      ← List.getD_eq_getElem _ 0 hilt, hget]

/-! ### Claims -/

/-- Claim C4: whenever the face model detects one or more regions (and the
image decoded), `extract_face_features` returns the embedding and landmark
map of the first region in the model's order, regardless of the encodings
and landmarks of all other regions. -/
theorem extract_selects_first_face (img : Image)
    (hd : img.decodable = true) (hloc : img.face_locations ≠ [])
    (e : List ℚ) (es : List (List ℚ)) (l : Landmarks) (ls : List Landmarks)
    (he : img.face_encodings = e :: es) (hl : img.face_landmarks = l :: ls) :
    extract_face_features img
      = some { face_encoding := e, face_landmarks := l } := by
  simp [extract_face_features, hd, hloc, he, hl]

/-- Claim C4 witness: an image with two detected faces; only the first
region's encoding and landmarks appear in the result. -/
theorem extract_selects_first_face_witness :
    extract_face_features
      { decodable := true,
        face_locations := [(0, 1, 1, 0), (2, 3, 3, 2)],
        face_encodings := [[1, 2], [9, 9]],
        face_landmarks := [[("chin", [(0, 0)])], [("chin", [(5, 5)])]] }
      = some { face_encoding := [1, 2], face_landmarks := [("chin", [(0, 0)])] } :=
  extract_selects_first_face _ rfl (by decide) _ _ _ _ rfl rfl

/-- Claim C5: when the face model detects zero regions, extraction returns
the structured no-face outcome `none` (the Python `None`, not a raised
exception), and in particular never a partial record. -/
theorem extract_no_face_returns_none (img : Image)
    (h : img.face_locations = []) :
    extract_face_features img = none := by
  simp [extract_face_features, h]

/-- Claim C5 witness: a decodable image with no detected face region. -/
theorem extract_no_face_returns_none_witness :
    extract_face_features
      { decodable := true, face_locations := [],
        face_encodings := [], face_landmarks := [] } = none :=
  extract_no_face_returns_none _ rfl

/-- Claim C10: `extract_face_features` is total at its interface: for every
image it either returns `none` — and then one of the uniform failure causes
holds (decode failure, no face, no encodings, no landmarks) — or a complete
record containing both the first encoding and the first landmark map; no
record with a field missing is observable and no exception escapes (the
embedding is a total function into `Option FaceFeatures`). -/
theorem extract_total_interface (img : Image) :
    (extract_face_features img = none ∧
      (img.decodable = false ∨ img.face_locations = [] ∨
        img.face_encodings = [] ∨ img.face_landmarks = [])) ∨
    (∃ e l, img.face_encodings.head? = some e ∧
      img.face_landmarks.head? = some l ∧
      extract_face_features img
        = some { face_encoding := e, face_landmarks := l }) := by
  rcases img with ⟨d, locs, encs, lands⟩
  cases d <;> rcases locs with _ | ⟨r, rs⟩ <;> rcases encs with _ | ⟨e, es⟩ <;>
    rcases lands with _ | ⟨l, ls⟩ <;> simp [extract_face_features]

/-- Claim C1: whenever feature extraction fails on at least one of the two
images, the `/extract-features` POST handler answers HTTP 400 with body
exactly `{"error": "No face detected in one or both images"}`; the response
carries no distance value and the distance computation is never reached. -/
theorem compare_no_face_400 (img1 img2 : Image)
    (h : extract_face_features img1 = none ∨ extract_face_features img2 = none) :
    extract_features_post img1 img2
      = CompareResponse.badRequest "No face detected in one or both images" ∧
    (extract_features_post img1 img2).statusCode = 400 := by
  cases h1 : extract_face_features img1 <;>
    cases h2 : extract_face_features img2 <;>
    simp_all [extract_features_post, CompareResponse.statusCode]

/-- Claim C1 witness: second image has no detectable face; the first does. -/
theorem compare_no_face_400_witness :
    extract_features_post
      { decodable := true, face_locations := [(0, 1, 1, 0)],
        face_encodings := [[1, 2]], face_landmarks := [[("chin", [(0, 0)])]] }
      { decodable := true, face_locations := [],
        face_encodings := [], face_landmarks := [] }
      = CompareResponse.badRequest "No face detected in one or both images" :=
  (compare_no_face_400 _ _ (Or.inr (by decide))).1

/-- Claim C7: the store keeps one signature per student identifier and
re-enrollment replaces it wholesale: after saving `e1` and then `e2` under
the same identifier (both writes completing), loading yields exactly `e2` —
never `e1`, never any blend. -/
theorem reenrollment_overwrites (fs : FS) (id : String) (e1 e2 : List ℚ) :
    np_load
      (save_face_encoding
        (save_face_encoding fs id e1 WriteOutcome.ok).1 id e2 WriteOutcome.ok).1
      (encodingPath id) = some e2 := by
  simp [save_face_encoding, np_save, np_load]

/-- Claim C8 counterexample: the claim states that every pair of embeddings
of differing lengths fails with a dimension-mismatch error and is never
coerced to a numeric distance.  But `face_distance([a], b)` uses numpy
broadcasting, which silently stretches a length-1 operand: for `a = [0]`
and `b = [3, 4]` (lengths 1 ≠ 2) the computation succeeds and returns the
numeric distance 5 (squared: 25). -/
theorem distance_mismatch_coerced_cex :
    [(0 : ℚ)].length ≠ [(3 : ℚ), 4].length ∧
    face_distance_sq [(0 : ℚ)] [3, 4] = Except.ok 25 := by
  refine ⟨by decide, ?_⟩
  show Except.ok ((0 - 3) * (0 - 3) + ((0 - 4) * (0 - 4) + 0) : ℚ) = Except.ok 25
  norm_num

/-- Claim C8 (amended): for embeddings of differing lengths **neither of
which has length 1**, the broadcast subtraction inside the distance
computation raises `ValueError` (no numeric result), and the
`/extract-features` handler surfaces it through its `except` clause as an
HTTP 500 error-severity response; when one operand has length 1, numpy
broadcasting silently coerces the pair to a numeric distance instead. -/
theorem distance_mismatch_error (a b : List ℚ)
    (hne : a.length ≠ b.length) (ha : a.length ≠ 1) (hb : b.length ≠ 1) :
    face_distance_sq a b = Except.error broadcastErrMsg ∧
    ∀ img1 img2 f1 f2,
      extract_face_features img1 = some f1 →
      extract_face_features img2 = some f2 →
      f1.face_encoding = a → f2.face_encoding = b →
      extract_features_post img1 img2
        = CompareResponse.serverError broadcastErrMsg := by
  have herr : face_distance_sq a b = Except.error broadcastErrMsg := by
    rcases a with _ | ⟨x, _ | ⟨x2, xs⟩⟩ <;>
      rcases b with _ | ⟨y, _ | ⟨y2, ys⟩⟩ <;>
      simp_all [face_distance_sq, np_broadcast_sub, Except.map]
  refine ⟨herr, fun img1 img2 f1 f2 h1 h2 hfa hfb => ?_⟩
  simp [extract_features_post, h1, h2, hfa, hfb, herr]

/-- Claim C8 witness: lengths 2 and 3 — the distance computation fails with
the broadcast error. -/
theorem distance_mismatch_error_witness :
    face_distance_sq [(1 : ℚ), 2] [1, 2, 3] = Except.error broadcastErrMsg :=
  (distance_mismatch_error [(1 : ℚ), 2] [1, 2, 3]
    (by decide) (by decide) (by decide)).1

/-- Claim C9 (code bug): `save_face_encoding` uses a plain in-place
`np.save`, which truncates the existing file before writing.  With `[1, 2]`
previously stored for student `s1`, a save of `[3, 4]` whose write fails
after one component reports failure (`False`) — but the store now holds a
truncated record and the previous embedding is no longer readable,
contradicting the required atomicity. -/
theorem save_midwrite_corrupts_store :
    (save_face_encoding
        (save_face_encoding (fun _ => none) "s1" [1, 2] WriteOutcome.ok).1
        "s1" [3, 4] (WriteOutcome.failWrite 1)).2 = false ∧
    (save_face_encoding
        (save_face_encoding (fun _ => none) "s1" [1, 2] WriteOutcome.ok).1
        "s1" [3, 4] (WriteOutcome.failWrite 1)).1 (encodingPath "s1")
      = some (FileContent.incomplete [3]) ∧
    np_load
      (save_face_encoding
        (save_face_encoding (fun _ => none) "s1" [1, 2] WriteOutcome.ok).1
        "s1" [3, 4] (WriteOutcome.failWrite 1)).1 (encodingPath "s1")
      ≠ some [1, 2] := by
  refine ⟨rfl, by simp [save_face_encoding, np_save], ?_⟩
  simp [save_face_encoding, np_save, np_load]

/-- Claim C2: on any non-empty family of same-length embeddings, the
enrollment aggregation `np.mean(..., axis=0)` returns a vector of that same
length whose `i`-th component is the sum of the `i`-th components of the
inputs divided by the number of inputs. -/
theorem enrollment_mean_is_elementwise_average (vs : List (List ℚ)) (n : ℕ)
    (h0 : vs ≠ []) (hl : ∀ v ∈ vs, v.length = n) :
    (np_mean_axis0 vs).length = n ∧
    ∀ i, i < n → (np_mean_axis0 vs).getD i 0
      = (vs.map (fun v => v.getD i 0)).sum / (vs.length : ℚ) :=
  np_mean_axis0_spec vs n h0 hl

/-- Claim C2 witness: the mean of `[1, 3]` and `[3, 5]` at component 0. -/
theorem enrollment_mean_is_elementwise_average_witness :
    (np_mean_axis0 [[1, 3], [3, 5]]).getD 0 0
      = (([[1, 3], [3, 5]] : List (List ℚ)).map (fun v => v.getD 0 0)).sum
        / (([[1, 3], [3, 5]] : List (List ℚ)).length : ℚ) :=
  (enrollment_mean_is_elementwise_average [[1, 3], [3, 5]] 2 (by decide)
    (by decide)).2 0 (by decide)

/-- Claim C6: aggregation is order-invariant with exact equality: for any
permutation of a non-empty family of same-length embeddings, the mean of the
permuted family is component-wise exactly equal to the mean of the original
family. -/
theorem aggregate_order_invariant (vs ws : List (List ℚ)) (n : ℕ)
    (hp : vs.Perm ws) (h0 : vs ≠ []) (hl : ∀ v ∈ vs, v.length = n) :
    np_mean_axis0 vs = np_mean_axis0 ws := by
  have h0w : ws ≠ [] := by
    intro h
    exact h0 (List.Perm.eq_nil (h ▸ hp))
  have hlw : ∀ w ∈ ws, w.length = n := fun w hw => hl w (hp.mem_iff.mpr hw)
  obtain ⟨hv1, hv2⟩ := np_mean_axis0_spec vs n h0 hl
  obtain ⟨hw1, hw2⟩ := np_mean_axis0_spec ws n h0w hlw
  refine List.ext_getElem (by rw [hv1, hw1]) (fun i h1 h2 => ?_)
  have hi : i < n := hv1 ▸ h1
  rw [← List.getD_eq_getElem _ 0 h1, ← List.getD_eq_getElem _ 0 h2, hv2 i hi,
    hw2 i hi, (hp.map (fun v => v.getD i 0)).sum_eq, hp.length_eq]

/-- Claim C6 witness: `aggregate([a, b, c]) = aggregate([c, a, b])` on
concrete 2-d embeddings. -/
theorem aggregate_order_invariant_witness :
    np_mean_axis0 [[1, 2], [3, 4], [5, 6]]
      = np_mean_axis0 [[5, 6], [1, 2], [3, 4]] :=
  aggregate_order_invariant [[1, 2], [3, 4], [5, 6]] [[5, 6], [1, 2], [3, 4]] 2
    (by decide) (by decide) (by decide)

/-- Claim C3: during multi-image enrollment every per-image failure is
skipped without aborting the request (an image whose iteration yields no
encoding contributes nothing, wherever it sits in the sequence); if at least
one image yields an encoding (and the one store write completes) the request
succeeds; and if zero images yield an encoding the handler answers HTTP 400
with message `'No valid faces detected in any image'` whatever the store
would have done. -/
theorem enrollment_per_image_policy :
    (∀ pre post bad, per_image_encoding bad = none →
      collect_encodings (pre ++ bad :: post) = collect_encodings (pre ++ post)) ∧
    (∀ id imgs fs, collect_encodings imgs ≠ [] →
      (process_images id imgs fs WriteOutcome.ok).1
        = EnrollResponse.success id) ∧
    (∀ id imgs fs w, collect_encodings imgs = [] →
      (process_images id imgs fs w).1
        = EnrollResponse.badRequest "No valid faces detected in any image") := by
  refine ⟨fun pre post bad hbad => ?_, fun id imgs fs h => ?_,
    fun id imgs fs w h => ?_⟩
  · simp [collect_encodings, List.filterMap_append, List.filterMap_cons, hbad]
  · simp [process_images, h, save_face_encoding, np_save]
  · simp [process_images, h]

/-- Claim C3 witness: a no-face image among the uploads is skipped (the
collected encodings equal those without it), one good image is enough for
success, and a batch with only the no-face image fails with the 400
message. -/
theorem enrollment_per_image_policy_witness :
    collect_encodings
        ([] ++ { decodeOk := true, face_locations := [],
                  face_encodings := [[7, 7]] } ::
          [{ decodeOk := true, face_locations := [(0, 1, 1, 0)],
              face_encodings := [[1, 2]] }])
      = collect_encodings
          ([] ++ [{ decodeOk := true, face_locations := [(0, 1, 1, 0)],
                    face_encodings := [[1, 2]] }]) ∧
    (process_images "s1"
        [{ decodeOk := true, face_locations := [], face_encodings := [[7, 7]] },
          { decodeOk := true, face_locations := [(0, 1, 1, 0)],
            face_encodings := [[1, 2]] }]
        (fun _ => none) WriteOutcome.ok).1 = EnrollResponse.success "s1" ∧
    (process_images "s1"
        [{ decodeOk := true, face_locations := [], face_encodings := [[7, 7]] }]
        (fun _ => none) WriteOutcome.ok).1
      = EnrollResponse.badRequest "No valid faces detected in any image" :=
  ⟨enrollment_per_image_policy.1 [] _ _ (by decide),
    enrollment_per_image_policy.2.1 "s1" _ _ (by decide),
    enrollment_per_image_policy.2.2 "s1" _ _ WriteOutcome.ok (by decide)⟩

end SmartAttendance
